import Mathlib

/-!
Shallow embedding of `src/app.py` (Streamlit "AI Interview Partner").

The Streamlit script reruns top to bottom on every user interaction.  One
execution of the script body is modelled by `rerun`, which takes the session
state surviving across reruns (`st.session_state`) plus the external inputs of
that rerun (widget values and the remote model's behaviour) and returns the new
session state together with the ordered list of observable effects (`Event`):
model calls, rendered chat bubbles, banners.

Fidelity notes on parts that are display- or I/O-only and carry no state:
* `st.set_page_config`, `st.title`, `st.caption`, `st.divider`, spinners and
  the TTS call (`text_to_speech`) only draw; they are not modelled.
* the voice toggle only selects where the user's text comes from
  (`mic_recorder` transcription vs `st.chat_input`); both paths end in the same
  `user_prompt` string, which is the model's `userPrompt` input.
* the remote Gemini endpoint is external: each `send_message` whose stream is
  consumed is parametrised by a `StreamOutcome` (the chunks it yields and
  whether it raises), and a context upload by an `UploadOutcome`.
-/

namespace InterviewPartner

/-- Role tag of one conversation turn. -/
inductive Role where
  | system
  | user
  | assistant
deriving DecidableEq

/-- One role/content record, as stored in `st.session_state.messages`. -/
structure Msg where
  role : Role
  content : String
deriving DecidableEq

/-- `ROLES` from the script: interviewer role name ↦ system instruction. -/
def ROLES : List (String × String) :=
  [("Senior Python Developer",
    "You are a professional, expert-level technical interviewer for a " ++
    "Senior Python Developer position. Your goal is to assess the candidate's " ++
    "knowledge and problem-solving skills in Python, OOP, and system design. " ++
    "Ask only one question at a time. Do not provide the answer or solutions. " ++
    "Provide constructive feedback or a follow-up question based on the user's response."),
   ("Data Scientist/ML Engineer",
    "You are a highly analytical technical interviewer for a Data Scientist/ML Engineer role. " ++
    "Focus on statistics, machine learning algorithms, model evaluation, and MLOps. " ++
    "Ask one question at a time. Do not provide answers. Give detailed, technical feedback."),
   ("Product Manager (PM)",
    "You are an empathetic yet challenging interviewer for a Product Manager role. " ++
    "Focus on product strategy, user stories, prioritization frameworks, and design sense. " ++
    "Ask only one question at a time. Do not provide answers. Provide insightful feedback.")]

/-- Lookup `ROLES[r]`. -/
def rolePrompt (r : String) : String :=
  ((ROLES.find? (fun p => p.1 == r)).map Prod.snd).getD ""

/-- The hidden starter instruction (`initial_prompt`, line 192). -/
def initial_prompt : String :=
  "Start the interview now by asking your first question."

/-- The fallback text assigned in the `except` branch of
`generate_ai_response` (line 184). -/
def fallback_message : String :=
  "Sorry, I ran into an error. Please try again."

/-- The fixed instruction sent together with the uploaded resume image
(lines 121-125). -/
def resume_context_instruction : String :=
  "Analyze this resume image. The interview questions you generate " ++
  "must be directly based on the skills and experience listed in this resume. " ++
  "Do not mention the image directly, just use it for context."

/-- The cross-rerun state held in `st.session_state`.  `chat_history` stands
for the internal history of the live `client.chats` session object;
`system_prompt` is the `system_instruction` given to `chats.create`, which is
configuration of that session, not an element of any turn list. -/
structure SessionState where
  selected_role : String
  system_prompt : String
  chat_history : List Msg
  messages : List Msg
  interview_started : Bool
  uploaded_file_processed : Bool
deriving DecidableEq

/-- `initialize_chat_session(role_prompt)` (lines 59-65): a fresh chat session
with the given system instruction and an empty internal history. -/
def initialize_chat_session (role_prompt : String) (s : SessionState) : SessionState :=
  { s with system_prompt := role_prompt, chat_history := [] }

/-- `clear_chat_history()` (lines 67-72). -/
def clear_chat_history (s : SessionState) : SessionState :=
  let s1 := initialize_chat_session (rolePrompt s.selected_role) s
  { s1 with
      messages := [],
      interview_started := false,
      uploaded_file_processed := false }

/-- The state set up on first page load (lines 75-81). -/
def initState : SessionState :=
  { selected_role := "Senior Python Developer",
    system_prompt := rolePrompt "Senior Python Developer",
    chat_history := [],
    messages := [],
    interview_started := false,
    uploaded_file_processed := false }

/-- Observable effects of one rerun, in program order. -/
inductive Event where
  /-- `chat_session.send_message(prompt)` was invoked. -/
  | modelCall (prompt : String)
  /-- A committed chat bubble: the display loop (lines 143-145), the final
  assistant markdown (line 166), or the echoed user message (lines 236-237). -/
  | chatBubble (role : Role) (content : String)
  /-- The response container was left holding an in-flight rendering
  (text plus the `▌` cursor) because the stream raised mid-iteration. -/
  | abortedRender (content : String)
  /-- `st.error(text)`. -/
  | errorBanner (text : String)
  /-- `st.success(text)`. -/
  | successBanner (text : String)
  /-- Marker: the initial-question block (lines 190-200) fired. -/
  | starterTriggered
deriving DecidableEq

/-- Behaviour of one `send_message` call whose result is iterated as a stream:
the text of each yielded chunk (`none` for a chunk without a `text` attribute),
and `some e` when the call or the iteration raises after those chunks. -/
structure StreamOutcome where
  chunks : List (Option String)
  error : Option String
deriving DecidableEq

/-- The `full_response` accumulated over the stream (lines 161-163): the
concatenation, in emission order, of the text of chunks that have text. -/
def fullText (chunks : List (Option String)) : String :=
  (chunks.filterMap id).foldl (fun a b => a ++ b) ""

/-- `generate_ai_response(prompt_text)` (lines 151-184).  On success it renders
the final text and appends one assistant record to
`st.session_state.messages`; on failure it shows an error banner, sends the
error text back to the chat session, and assigns `fallback_message` to a local
variable that is never read again — `messages` is not touched. -/
def generate_ai_response (s : SessionState) (prompt_text : String)
    (stream : StreamOutcome) : SessionState × List Event :=
  let full := fullText stream.chunks
  match stream.error with
  | none =>
    ({ s with
        chat_history := s.chat_history ++ [⟨.user, prompt_text⟩, ⟨.assistant, full⟩],
        messages := s.messages ++ [⟨.assistant, full⟩] },
     [.modelCall prompt_text, .chatBubble .assistant full])
  | some e =>
    ({ s with
        chat_history := s.chat_history ++ [⟨.user, prompt_text⟩, ⟨.user, "Error: " ++ e⟩] },
     [Event.modelCall prompt_text] ++
       (if (stream.chunks.filterMap id).isEmpty then []
        else [Event.abortedRender (full ++ "▌")]) ++
       [Event.errorBanner ("An error occurred with the AI response: " ++ e),
        Event.modelCall ("Error: " ++ e)])

/-- Behaviour of processing an uploaded file: either the image decodes and the
context `send_message` returns `reply`, or decoding raises with message `e`. -/
inductive UploadOutcome where
  | valid (reply : String)
  | invalid (e : String)
deriving DecidableEq

/-- The upload handler (lines 113-137).  Runs only when a file is present and
`uploaded_file_processed` is unset; sets the guard first, and resets it again
in the `except` branch.  `st.session_state.messages` is never touched. -/
def uploadStep (s : SessionState) (upload : Option UploadOutcome) :
    SessionState × List Event :=
  match upload with
  | none => (s, [])
  | some u =>
    if s.uploaded_file_processed then (s, [])
    else
      let s1 := { s with uploaded_file_processed := true }
      match u with
      | .valid reply =>
        ({ s1 with
            chat_history := s1.chat_history ++
              [⟨.user, resume_context_instruction⟩, ⟨.assistant, reply⟩] },
         [.modelCall resume_context_instruction,
          .successBanner "Resume analyzed and successfully added to the AI's context!"])
      | .invalid e =>
        ({ s1 with uploaded_file_processed := false },
         [.errorBanner ("Error processing file. Please ensure it's a valid image. Error: " ++ e)])

/-- The display loop (lines 143-145): every record of
`st.session_state.messages` is rendered, with no filtering by role. -/
def displayLoop (s : SessionState) : List Event :=
  s.messages.map (fun m => .chatBubble m.role m.content)

/-- The initial-question block (lines 190-200): guarded only by the
`interview_started` flag; appends the starter instruction as a user record,
calls `generate_ai_response`, then sets the flag. -/
def starterStep (s : SessionState) (stream : StreamOutcome) :
    SessionState × List Event :=
  if s.interview_started then (s, [])
  else
    let s1 := { s with messages := s.messages ++ [⟨.user, initial_prompt⟩] }
    let r := generate_ai_response s1 initial_prompt stream
    ({ r.1 with interview_started := true }, Event.starterTriggered :: r.2)

/-- Processing of the user prompt (lines 234-243).  `user_prompt` is `none`
when no input was submitted this rerun; `if user_prompt:` is Python truthiness,
so the empty string is also skipped. -/
def userPromptStep (s : SessionState) (user_prompt : Option String)
    (stream : StreamOutcome) : SessionState × List Event :=
  match user_prompt with
  | none => (s, [])
  | some p =>
    if p = "" then (s, [])
    else
      let s1 := { s with messages := s.messages ++ [⟨.user, p⟩] }
      let r := generate_ai_response s1 p stream
      (r.1, Event.chatBubble .user p :: r.2)

/-- External inputs of one rerun.  `reset` covers both the
`Start New Interview` button and a role change: their callbacks run
`clear_chat_history` before the script body reruns. -/
structure RerunInput where
  reset : Bool
  upload : Option UploadOutcome
  starterStream : StreamOutcome
  userPrompt : Option String
  userStream : StreamOutcome
deriving DecidableEq

/-- One top-to-bottom execution of the script body, in source order:
reset callback, upload handler, display loop, initial-question block,
user-prompt processing. -/
def rerun (s : SessionState) (i : RerunInput) : SessionState × List Event :=
  let s0 := if i.reset then clear_chat_history s else s
  let r1 := uploadStep s0 i.upload
  let e2 := displayLoop r1.1
  let r3 := starterStep r1.1 i.starterStream
  let r4 := userPromptStep r3.1 i.userPrompt i.userStream
  (r4.1, r1.2 ++ e2 ++ r3.2 ++ r4.2)

/-- A sequence of reruns, accumulating all events. -/
def runTrace (s : SessionState) : List RerunInput → SessionState × List Event
  | [] => (s, [])
  | i :: is =>
    let r := rerun s i
    let rest := runTrace r.1 is
    (rest.1, r.2 ++ rest.2)

/-- Recognises the starter marker event. -/
def isStarter : Event → Bool
  | .starterTriggered => true
  | _ => false

/-- Number of starter-instruction triggers in an event list. -/
def starterCount (evs : List Event) : Nat :=
  (evs.filter isStarter).length

/-- The prompts of the `send_message` calls in an event list, in order. -/
def modelCalls (evs : List Event) : List String :=
  evs.filterMap (fun e => match e with | .modelCall p => some p | _ => none)

/-- Recognises a rendered user bubble. -/
def isUserBubble : Event → Bool
  | .chatBubble .user _ => true
  | _ => false

/-- Recognises a rendered assistant bubble. -/
def isAssistantBubble : Event → Bool
  | .chatBubble .assistant _ => true
  | _ => false

/-- The startup credential check (lines 21-27): `st.secrets` lookup raises
`KeyError` when the credential is absent, and the handler shows an error and
calls `st.stop()`. -/
inductive StartupResult where
  | running (api_key : String)
  | halted (errMsg : String) (infoMsg : String)
deriving DecidableEq

/-- Outcome of lines 21-27 as a function of `st.secrets["GEMINI_API_KEY"]`. -/
def startupCheck (gemini_api_key : Option String) : StartupResult :=
  match gemini_api_key with
  | some k => .running k
  | none =>
    .halted "Error: GEMINI_API_KEY not found in Streamlit Secrets."
      "Please set the 'GEMINI_API_KEY' secret in your Streamlit Cloud settings."

/-- The whole app: if startup halts, no session state is created and no rerun
is processed (`st.stop()`); otherwise the reruns execute from `initState`. -/
def appRun (gemini_api_key : Option String) (inps : List RerunInput) :
    Option (SessionState × List Event) :=
  match startupCheck gemini_api_key with
  | .halted _ _ => none
  | .running _ => some (runTrace initState inps)

/-- States reachable across rerun boundaries from a fresh page load. -/
inductive Reachable : SessionState → Prop where
  | init : Reachable initState
  | step : ∀ (s : SessionState) (i : RerunInput), Reachable s → Reachable (rerun s i).1

/-! ### Helper lemmas shared by the claim theorems -/

theorem starterCount_append (a b : List Event) :
    starterCount (a ++ b) = starterCount a + starterCount b := by
  simp [starterCount, List.filter_append]

theorem starterCount_generate (s : SessionState) (p : String) (st : StreamOutcome) :
    starterCount (generate_ai_response s p st).2 = 0 := by
  rcases st with ⟨chunks, err⟩
  cases err with
  | none => simp [generate_ai_response, starterCount, isStarter]
  | some e =>
    simp only [generate_ai_response]
    split <;> simp [starterCount, isStarter]

theorem starterCount_upload (s : SessionState) (u : Option UploadOutcome) :
    starterCount (uploadStep s u).2 = 0 := by
  cases u with
  | none => simp [uploadStep, starterCount]
  | some v =>
    cases v <;>
      simp only [uploadStep] <;>
      split <;> simp [starterCount, isStarter]

theorem starterCount_display (s : SessionState) :
    starterCount (displayLoop s) = 0 := by
  simp only [displayLoop, starterCount]
  induction s.messages with
  | nil => rfl
  | cons m ms ih => simp [isStarter, ih]

theorem starterCount_userPrompt (s : SessionState) (up : Option String)
    (st : StreamOutcome) : starterCount (userPromptStep s up st).2 = 0 := by
  cases up with
  | none => simp [userPromptStep, starterCount]
  | some p =>
    by_cases hp : p = ""
    · simp [userPromptStep, hp, starterCount]
    · simpa [userPromptStep, hp, starterCount, isStarter] using
        starterCount_generate { s with messages := s.messages ++ [⟨.user, p⟩] } p st

theorem generate_started (s : SessionState) (p : String) (st : StreamOutcome) :
    (generate_ai_response s p st).1.interview_started = s.interview_started := by
  rcases st with ⟨chunks, err⟩
  cases err <;> simp [generate_ai_response]

theorem uploadStep_started (s : SessionState) (u : Option UploadOutcome) :
    (uploadStep s u).1.interview_started = s.interview_started := by
  cases u with
  | none => rfl
  | some v =>
    cases v <;> simp only [uploadStep] <;> split <;> rfl

theorem uploadStep_messages (s : SessionState) (u : Option UploadOutcome) :
    (uploadStep s u).1.messages = s.messages := by
  cases u with
  | none => rfl
  | some v =>
    cases v <;> simp only [uploadStep] <;> split <;> rfl

theorem userPromptStep_started (s : SessionState) (up : Option String)
    (st : StreamOutcome) :
    (userPromptStep s up st).1.interview_started = s.interview_started := by
  cases up with
  | none => rfl
  | some p =>
    by_cases hp : p = ""
    · simp [userPromptStep, hp]
    · simp [userPromptStep, hp, generate_started]

theorem starterStep_started (s : SessionState) (st : StreamOutcome) :
    (starterStep s st).1.interview_started = true := by
  by_cases h : s.interview_started
  · simp [starterStep, h]
  · simp [starterStep, h]

theorem starterStep_count (s : SessionState) (st : StreamOutcome) :
    starterCount (starterStep s st).2 =
      if s.interview_started then 0 else 1 := by
  by_cases h : s.interview_started
  · simp [starterStep, h, starterCount]
  · simpa [starterStep, h, starterCount, isStarter] using
      starterCount_generate
        { s with messages := s.messages ++ [⟨.user, initial_prompt⟩] }
        initial_prompt st

theorem clear_started (s : SessionState) :
    (clear_chat_history s).interview_started = false := rfl

theorem rerun_started (s : SessionState) (i : RerunInput) :
    (rerun s i).1.interview_started = true := by
  simp [rerun, userPromptStep_started, starterStep_started]

theorem rerun_starterCount (s : SessionState) (i : RerunInput) :
    starterCount (rerun s i).2 =
      if i.reset = false ∧ s.interview_started = true then 0 else 1 := by
  simp only [rerun, starterCount_append, starterCount_upload,
    starterCount_display, starterCount_userPrompt, starterStep_count,
    uploadStep_started]
  cases hr : i.reset with
  | false =>
    cases hs : s.interview_started <;> simp [hr, hs]
  | true =>
    simp [hr, clear_started]

theorem runTrace_events_cons (s : SessionState) (i : RerunInput)
    (is : List RerunInput) :
    (runTrace s (i :: is)).2 = (rerun s i).2 ++ (runTrace (rerun s i).1 is).2 := rfl

theorem runTrace_noReset_noStarter (s : SessionState) (is : List RerunInput)
    (hs : s.interview_started = true) (h : ∀ j ∈ is, j.reset = false) :
    starterCount (runTrace s is).2 = 0 := by
  induction is generalizing s with
  | nil => rfl
  | cons i is ih =>
    rw [runTrace_events_cons, starterCount_append, rerun_starterCount]
    have hi : i.reset = false := h i (List.mem_cons_self i is)
    rw [if_pos ⟨hi, hs⟩, ih (rerun s i).1 (rerun_started s i)
      (fun j hj => h j (List.mem_cons_of_mem i hj))]

/-! ### Helpers for the role invariant (C10) -/

/-- Every record of the list is a user or assistant record. -/
def GoodRoles (l : List Msg) : Prop :=
  ∀ m ∈ l, m.role = Role.user ∨ m.role = Role.assistant

theorem goodRoles_append {a b : List Msg} (ha : GoodRoles a) (hb : GoodRoles b) :
    GoodRoles (a ++ b) := by
  intro m hm
  rcases List.mem_append.mp hm with h | h
  · exact ha m h
  · exact hb m h

theorem goodRoles_generate (s : SessionState) (p : String) (st : StreamOutcome)
    (h : GoodRoles s.messages) :
    GoodRoles (generate_ai_response s p st).1.messages := by
  rcases st with ⟨chunks, err⟩
  cases err with
  | none =>
    simp only [generate_ai_response]
    exact goodRoles_append h (by intro m hm; simp at hm; subst hm; exact Or.inr rfl)
  | some e => exact h

theorem goodRoles_starterStep (s : SessionState) (st : StreamOutcome)
    (h : GoodRoles s.messages) :
    GoodRoles (starterStep s st).1.messages := by
  by_cases hs : s.interview_started
  · simpa [starterStep, hs] using h
  · simp only [starterStep, hs, if_false, Bool.false_eq_true]
    exact goodRoles_generate _ initial_prompt st
      (goodRoles_append h (by intro m hm; simp at hm; subst hm; exact Or.inl rfl))

theorem goodRoles_userPromptStep (s : SessionState) (up : Option String)
    (st : StreamOutcome) (h : GoodRoles s.messages) :
    GoodRoles (userPromptStep s up st).1.messages := by
  cases up with
  | none => exact h
  | some p =>
    by_cases hp : p = ""
    · simpa [userPromptStep, hp] using h
    · simp only [userPromptStep, hp, if_false]
      exact goodRoles_generate _ p st
        (goodRoles_append h (by intro m hm; simp at hm; subst hm; exact Or.inl rfl))

theorem goodRoles_rerun (s : SessionState) (i : RerunInput)
    (h : GoodRoles s.messages) :
    GoodRoles (rerun s i).1.messages := by
  have h0 : GoodRoles (if i.reset then clear_chat_history s else s).messages := by
    cases hr : i.reset with
    | false => simpa using h
    | true => intro m hm; simp [clear_chat_history, initialize_chat_session] at hm
  simp only [rerun]
  apply goodRoles_userPromptStep
  apply goodRoles_starterStep
  rw [uploadStep_messages]
  exact h0

/-! ### Claim theorems -/

/-- Claim C1 (code_bug evidence): when the starter call's stream raises after
yielding the fragment "Hel", the rerun of a fresh session leaves the message
history with only the hidden starter user turn — no assistant turn at all —
and neither renders nor stores the fallback text; instead an error banner is
shown, the interrupted partial render is left on screen, and the error text is
sent back to the model as a further call.  The claim (and the dead assignment
of `fallback_message` in the code's own `except` branch) says one fallback
assistant turn should be appended and shown. -/
theorem errored_call_drops_fallback :
    (rerun initState
      { reset := false, upload := none,
        starterStream := ⟨[some "Hel"], some "boom"⟩,
        userPrompt := none, userStream := ⟨[], none⟩ }).1.messages
        = [⟨.user, initial_prompt⟩] ∧
    (rerun initState
      { reset := false, upload := none,
        starterStream := ⟨[some "Hel"], some "boom"⟩,
        userPrompt := none, userStream := ⟨[], none⟩ }).2
        = [Event.starterTriggered,
           Event.modelCall initial_prompt,
           Event.abortedRender ("Hel" ++ "▌"),
           Event.errorBanner ("An error occurred with the AI response: " ++ "boom"),
           Event.modelCall ("Error: " ++ "boom")] ∧
    Event.chatBubble .assistant fallback_message ∉
      (rerun initState
        { reset := false, upload := none,
          starterStream := ⟨[some "Hel"], some "boom"⟩,
          userPrompt := none, userStream := ⟨[], none⟩ }).2 := by
  refine ⟨rfl, rfl, by decide⟩

/-- Started session produced by one clean rerun from a fresh load (used as the
concrete pre-state of the C2 counterexample). -/
def c2StartedState : SessionState :=
  (rerun initState
    { reset := false, upload := none,
      starterStream := ⟨[some "Question 1?"], none⟩,
      userPrompt := none, userStream := ⟨[], none⟩ }).1

/-- Claim C2 (counterexample): pressing reset while a file is still sitting in
the uploader makes the upload handler run before the initial-question block on
the next rerun, so the first `send_message` after that reset carries the
resume-context instruction, not the starter prompt — refuting "the first model
call after a fresh start or reset uses the fixed starter prompt". -/
theorem first_call_after_reset_not_starter :
    (modelCalls (rerun c2StartedState
      { reset := true, upload := some (.valid "Noted."),
        starterStream := ⟨[some "Question 2?"], none⟩,
        userPrompt := none, userStream := ⟨[], none⟩ }).2).head?
        = some resume_context_instruction ∧
    resume_context_instruction ≠ initial_prompt := by
  exact ⟨rfl, by decide⟩

/-- Claim C2 (amended): between any two reset events the starter instruction
is triggered exactly once — a rerun containing a reset triggers it once and
every later rerun without a reset triggers it zero times, and likewise the
first rerun after a fresh load; only the clause about the starter being the
first model call had to be dropped (a pending context upload may issue its
model call earlier in the same rerun). -/
theorem starter_once_between_resets :
    (∀ (s : SessionState) (i : RerunInput) (is : List RerunInput),
        i.reset = true → (∀ j ∈ is, j.reset = false) →
        starterCount (runTrace s (i :: is)).2 = 1) ∧
    (∀ (i : RerunInput) (is : List RerunInput),
        i.reset = false → (∀ j ∈ is, j.reset = false) →
        starterCount (runTrace initState (i :: is)).2 = 1) := by
  constructor
  · intro s i is hi h
    rw [runTrace_events_cons, starterCount_append, rerun_starterCount,
      runTrace_noReset_noStarter _ _ (rerun_started s i) h,
      if_neg (by simp [hi])]
  · intro i is hi h
    have h0 : initState.interview_started = false := rfl
    rw [runTrace_events_cons, starterCount_append, rerun_starterCount,
      runTrace_noReset_noStarter _ _ (rerun_started _ i) h,
      if_neg (by simp [h0])]

/-- Witness for `starter_once_between_resets` at a one-rerun trace containing
a reset. -/
theorem starter_once_between_resets_witness :
    starterCount (runTrace initState
      [{ reset := true, upload := none, starterStream := ⟨[], none⟩,
         userPrompt := none, userStream := ⟨[], none⟩ }]).2 = 1 :=
  starter_once_between_resets.1 initState
    { reset := true, upload := none, starterStream := ⟨[], none⟩,
      userPrompt := none, userStream := ⟨[], none⟩ } []
    rfl (by simp)

/-- Claim C3: `clear_chat_history` restores the displayed Turn sequence and
the chat session's history to exactly their initial values (in this code the
initial displayed list is empty — the system instruction lives in the session
configuration, not in any turn list), and clears both flags. -/
theorem reset_restores_initial_state (s : SessionState) :
    (clear_chat_history s).messages = initState.messages ∧
    (clear_chat_history s).chat_history = initState.chat_history ∧
    (clear_chat_history s).interview_started = false ∧
    (clear_chat_history s).uploaded_file_processed = false :=
  ⟨rfl, rfl, rfl, rfl⟩

/-- The first rerun of a fresh session with no upload and no user input, the
starter stream succeeding with chunks `cs` (used by C4). -/
def freshRender (cs : List (Option String)) : SessionState × List Event :=
  rerun initState
    { reset := false, upload := none, starterStream := ⟨cs, none⟩,
      userPrompt := none, userStream := ⟨[], none⟩ }

/-- Claim C4: on the first render of a fresh session with no upload, no user
bubble is rendered and exactly one assistant bubble (the starter question) is,
while the starter instruction has been appended to the history as a user-role
record — appended but not displayed on that render. -/
theorem first_render_starter_hidden (cs : List (Option String)) :
    (freshRender cs).2.filter isUserBubble = [] ∧
    (freshRender cs).2.filter isAssistantBubble
        = [Event.chatBubble .assistant (fullText cs)] ∧
    (freshRender cs).1.messages
        = [⟨.user, initial_prompt⟩, ⟨.assistant, fullText cs⟩] := by
  refine ⟨?_, ?_, ?_⟩ <;>
    simp [freshRender, rerun, uploadStep, displayLoop, starterStep,
      userPromptStep, generate_ai_response, initState,
      isUserBubble, isAssistantBubble]

/-- Claim C5: a successful chat call appends exactly one assistant record,
whose content is the concatenation, in emission order, of the text fragments
yielded by the stream. -/
theorem stream_concat_appended (s : SessionState) (p : String)
    (cs : List (Option String)) :
    (generate_ai_response s p ⟨cs, none⟩).1.messages
        = s.messages ++ [⟨.assistant, fullText cs⟩] ∧
    fullText cs = String.join (cs.filterMap id) :=
  ⟨rfl, rfl⟩

/-- Counterexample state for C6: a non-system turn is present while the
`interview_started` flag is unset (the code reaches such a state when a rerun
dies between appending the starter turn and setting the flag). -/
def c6State : SessionState :=
  { initState with messages := [⟨.assistant, "Hello"⟩] }

/-- Claim C6 (counterexample): the code guards the starter only by the
`interview_started` flag — in a state whose Turn sequence already contains a
non-system turn but whose flag is unset, the starter is re-triggered,
refuting "the starter is not re-triggered even if the flag is unset". -/
theorem starter_refires_despite_turns :
    c6State.interview_started = false ∧
    c6State.messages ≠ [] ∧
    starterCount (rerun c6State
      { reset := false, upload := none, starterStream := ⟨[some "Q"], none⟩,
        userPrompt := none, userStream := ⟨[], none⟩ }).2 = 1 := by
  refine ⟨rfl, by simp [c6State], ?_⟩
  rw [rerun_starterCount]
  simp [c6State, initState]

/-- Claim C6 (amended): duplicate triggering of the starter instruction is
prevented solely by the `interview_started` flag — on any rerun without a
reset the starter fires exactly when the flag is unset, regardless of the
Turn sequence's contents. -/
theorem starter_guard_flag_only (s : SessionState) (i : RerunInput)
    (h : i.reset = false) :
    starterCount (rerun s i).2 = if s.interview_started then 0 else 1 := by
  rw [rerun_starterCount]
  cases hs : s.interview_started <;> simp [h, hs]

/-- Witness for `starter_guard_flag_only` at the fresh state. -/
theorem starter_guard_flag_only_witness :
    starterCount (rerun initState
      { reset := false, upload := none, starterStream := ⟨[], none⟩,
        userPrompt := none, userStream := ⟨[], none⟩ }).2
      = if initState.interview_started then 0 else 1 :=
  starter_guard_flag_only initState
    { reset := false, upload := none, starterStream := ⟨[], none⟩,
      userPrompt := none, userStream := ⟨[], none⟩ } rfl

/-- Claim C7: submitting an empty user input (no submission, or the empty
string, which Python truthiness filters out) appends no turns, triggers no
model call, and leaves the session state unchanged. -/
theorem empty_input_is_noop (s : SessionState) (st : StreamOutcome) :
    userPromptStep s none st = (s, []) ∧
    userPromptStep s (some "") st = (s, []) :=
  ⟨rfl, rfl⟩

/-- Claim C8: a failing context-load attempt (the handler runs because the
guard was unset) leaves the guard unset so the upload can be retried, does not
mutate the displayed Turn sequence or the chat session history, and surfaces
exactly an error banner. -/
theorem failed_upload_retryable (s : SessionState) (e : String)
    (h : s.uploaded_file_processed = false) :
    (uploadStep s (some (.invalid e))).1.uploaded_file_processed = false ∧
    (uploadStep s (some (.invalid e))).1.messages = s.messages ∧
    (uploadStep s (some (.invalid e))).1.chat_history = s.chat_history ∧
    (uploadStep s (some (.invalid e))).2
        = [.errorBanner
            ("Error processing file. Please ensure it's a valid image. Error: " ++ e)] := by
  simp [uploadStep, h]

/-- Witness for `failed_upload_retryable` at the fresh state. -/
theorem failed_upload_retryable_witness :
    (uploadStep initState (some (.invalid "bad"))).1.uploaded_file_processed = false ∧
    (uploadStep initState (some (.invalid "bad"))).1.messages = initState.messages ∧
    (uploadStep initState (some (.invalid "bad"))).1.chat_history = initState.chat_history ∧
    (uploadStep initState (some (.invalid "bad"))).2
        = [.errorBanner
            ("Error processing file. Please ensure it's a valid image. Error: " ++ "bad")] :=
  failed_upload_retryable initState "bad" rfl

/-- Claim C9: with the API credential absent, startup halts with the
user-visible configuration error, and the app processes no reruns at all —
no model calls and no history mutations ever happen. -/
theorem missing_credential_halts (inps : List RerunInput) :
    appRun none inps = none ∧
    startupCheck none =
      .halted "Error: GEMINI_API_KEY not found in Streamlit Secrets."
        "Please set the 'GEMINI_API_KEY' secret in your Streamlit Cloud settings." :=
  ⟨rfl, rfl⟩

/-- Claim C10: in every reachable session state, every record of the displayed
message history has role user or assistant (no system or context record is
ever placed there), and a successful context upload leaves the displayed
history unchanged. -/
theorem displayed_roles_invariant :
    (∀ (s : SessionState), Reachable s →
        ∀ m ∈ s.messages, m.role = Role.user ∨ m.role = Role.assistant) ∧
    (∀ (s : SessionState) (r : String),
        (uploadStep s (some (.valid r))).1.messages = s.messages) := by
  constructor
  · intro s hs
    induction hs with
    | init => intro m hm; cases hm
    | step s i _ ih => exact goodRoles_rerun s i ih
  · intro s r
    exact uploadStep_messages s (some (.valid r))

/-- Witness for `displayed_roles_invariant` at a concrete reachable state and
member record. -/
theorem displayed_roles_invariant_witness :
    (⟨Role.user, initial_prompt⟩ : Msg).role = Role.user ∨
    (⟨Role.user, initial_prompt⟩ : Msg).role = Role.assistant :=
  displayed_roles_invariant.1
    (rerun initState
      { reset := false, upload := none, starterStream := ⟨[], none⟩,
        userPrompt := none, userStream := ⟨[], none⟩ }).1
    (Reachable.step initState
      { reset := false, upload := none, starterStream := ⟨[], none⟩,
        userPrompt := none, userStream := ⟨[], none⟩ } Reachable.init)
    ⟨Role.user, initial_prompt⟩ (by decide)

end InterviewPartner
